import Mathlib

/-!
# VMC96 K1 protocol layer — a shallow embedding of `src/vmc96api.c`

This file embeds the K1 message-protocol layer of the VMC96 vending-machine
board API (frame construction, XOR checksum, response validation keyed on the
targeted controller address, and the domain decoders for motor status,
opto-line bitmask and version strings) and proves / refutes the frozen claims
about it.

Bytes are modelled as `Nat` values `< 256`; where C performs `unsigned char`
stores the model applies `% 256` explicitly.  C `char` (signed on the x86-64
Linux targets this library is built for) is modelled as `Int` in `-128..127`
via `toSChar`.  Buffers with a separate length field are modelled as lists
whose length is the length field.  The FTDI transport is an external
collaborator; it is modelled as an oracle (`Transport`) saying whether the
purge and write succeed and what bytes a read returns, and each operation
additionally returns the list of transport interactions it performed.
-/

namespace VMC96

/-! ## Protocol constants (from the `#define`s in `src/vmc96api.c`) -/

def VMC96_MESSAGE_STX : Nat := 0x35
def VMC96_MESSAGE_MAX_LEN : Nat := 255
def VMC96_MESSAGE_DATA_MAX_LEN : Nat := 250

def VMC96_CONTROLLER_GLOBAL_BROADCAST : Nat := 0x00
def VMC96_CONTROLLER_RELAY_BASE_ADDRESS : Nat := 0x26
def VMC96_CONTROLLER_RELAY_1 : Nat := 0x26
def VMC96_CONTROLLER_RELAY_2 : Nat := 0x27
def VMC96_CONTROLLER_MOTOR_ARRAY : Nat := 0x30

def VMC96_COMMAND_SIMPLE_PING : Nat := 0x00
def VMC96_COMMAND_GLOBAL_RESET : Nat := 0x01
def VMC96_COMMAND_KERNEL_VERSION : Nat := 0x02
def VMC96_COMMAND_RESET : Nat := 0x05
def VMC96_COMMAND_MOTOR_STATUS_REQUEST : Nat := 0x10
def VMC96_COMMAND_MOTOR_STOP_ALL : Nat := 0x12
def VMC96_COMMAND_MOTOR_RUN : Nat := 0x13
def VMC96_COMMAND_MOTOR_OPTO_LINE_STATUS : Nat := 0x15
def VMC96_COMMAND_RELAY_FUNCTION : Nat := 0x11

def VMC96_MOTOR_MAX_CURRENT_READING_MA : Nat := 500

/-- Modelled from the spec: the motor-array bounds constants
`VMC96_MOTOR_ARRAY_ROWS_COUNT` and `VMC96_MOTOR_ARRAY_COLUMNS_COUNT` live in
the public header `vmc96.h`, which is not under `src/`.  The spec describes a
96-motor grid addressed by row and column whose encoded byte packs
`row + 1` in the high nibble and `col + 1` in the low nibble; the board's
grid is 8 rows by 12 columns. -/
def VMC96_MOTOR_ARRAY_ROWS_COUNT : Nat := 8

/-- Modelled from the spec: see `VMC96_MOTOR_ARRAY_ROWS_COUNT`. -/
def VMC96_MOTOR_ARRAY_COLUMNS_COUNT : Nat := 12

/-! ## Result codes

Modelled from the spec: the `VMC96_SUCCESS` / `VMC96_ERROR_*` codes are
`#define`s in `vmc96.h`, which is not under `src/`.  The spec's error
taxonomy (§7) lists resource, transport, protocol and domain-validation
kinds; `src/vmc96api.c`'s `vmc96_get_error_code_string` enumerates the same
codes.  They are modelled as an inductive of distinct kinds. -/

inductive VMC96Result where
  | success
  | errOutOfMemory
  | errFtdiInitialize
  | errFtdiSetInterface
  | errFtdiOpenUsbDevice
  | errFtdiResetUsb
  | errFtdiSetBaudrate
  | errFtdiSetLineProps
  | errFtdiSetNoFlow
  | errFtdiWriteData
  | errFtdiReadData
  | errFtdiPurgeBuffers
  | errResponseInvalidChecksum
  | errResponseNegativeAck
  | errResponseMalformed
  | errResponseInvalidSource
  | errResponseInvalidLength
  | errInvalidMotorCoordinates
deriving DecidableEq, Repr

/-! ## Data model -/

/-- `struct vmc96_message_s`: `data` models the `data` buffer together with
`data_length` (the list's length), and `raw` models `raw` together with
`raw_length`. -/
structure Vmc96Message where
  id_controller : Nat
  command : Nat
  data : List Nat
  raw : List Nat
deriving DecidableEq, Repr

/-- The message/response scratch pair of `struct VMC96_s` (the FTDI handle
itself is external and carries no protocol state). -/
structure VMC96State where
  message : Vmc96Message
  response : Vmc96Message
deriving DecidableEq, Repr

/-- One transport interaction performed during an exchange. -/
inductive TransportEvent where
  | purge
  | write (bytes : List Nat)
  | read
deriving DecidableEq, Repr

/-- Oracle for the external FTDI transport: whether `ftdi_usb_purge_buffers`
and `ftdi_write_data` succeed, and what `ftdi_read_data` yields (`none` is a
read error, `some bs` the received bytes). -/
structure Transport where
  purge_ok : Bool
  write_ok : Bool
  read_result : Option (List Nat)
deriving DecidableEq, Repr

/-- Modelled from the spec: `VMC96_motor_coordinate_t` is declared in
`vmc96.h` (not under `src/`); a motor position is a row/column pair.  The
fields carry the `int` values computed by the decode macros, so they are
modelled as `Int`. -/
structure VMC96MotorCoordinate where
  row : Int
  col : Int
deriving DecidableEq, Repr

/-- Modelled from the spec: `VMC96_motor_array_status_t` is declared in
`vmc96.h` (not under `src/`); per the spec it holds a milliamp reading and
the ordered sequence of active motor positions (`motors` models the filled
prefix of the fixed array, `active_count` elements long). -/
structure VMC96MotorArrayStatus where
  current_ma : Int
  active_count : Nat
  motors : List VMC96MotorCoordinate
deriving DecidableEq, Repr

/-- The all-zero status produced by `memset( status, 0, sizeof(...) )`. -/
def zero_motor_array_status : VMC96MotorArrayStatus :=
  { current_ma := 0, active_count := 0, motors := [] }

/-! ## Helper macros (lines 63-67 of `src/vmc96api.c`) -/

/-- `VMC96_GET_MOTOR_ID( _row, _col )`: `((_row + 1) << 4) + (_col + 1)`,
computed in C `int` arithmetic (nonnegative here since rows/cols are
unsigned chars). -/
def VMC96_GET_MOTOR_ID (row col : Nat) : Nat :=
  ((row + 1) <<< 4) + (col + 1)

/-- `VMC96_GET_MOTOR_ROW( _mid )`: `(((_mid & 0xF0) >> 4) - 1)` in C `int`
arithmetic, so the result may be `-1`. -/
def VMC96_GET_MOTOR_ROW (mid : Nat) : Int :=
  (((mid &&& 0xF0) >>> 4 : Nat) : Int) - 1

/-- `VMC96_GET_MOTOR_COL( _mid )`: `((_mid & 0x0F) - 1)` in C `int`
arithmetic. -/
def VMC96_GET_MOTOR_COL (mid : Nat) : Int :=
  ((mid &&& 0x0F : Nat) : Int) - 1

/-- `VMC96_GET_MOTOR_CURRENT_MA( _val )`: `(500 * _val) / 255` with C `int`
(truncating) division; nonnegative inputs, so `Nat` division. -/
def VMC96_GET_MOTOR_CURRENT_MA (v : Nat) : Nat :=
  (VMC96_MOTOR_MAX_CURRENT_READING_MA * v) / 255

/-- `VMC96_VALIDATE_MOTOR_COORDINATE( _row, _col )`: both coordinates are
`unsigned char` (hence nonnegative) and must be below the array bounds. -/
def VMC96_VALIDATE_MOTOR_COORDINATE (row col : Nat) : Bool :=
  decide (row < VMC96_MOTOR_ARRAY_ROWS_COUNT) &&
    decide (col < VMC96_MOTOR_ARRAY_COLUMNS_COUNT)

/-! ## Checksum (lines 341-350) -/

/-- The XOR of a byte list, as the bit pattern a C `char` accumulator ends up
holding (each `buf[i]` is an `unsigned char`). -/
def xorBytes (l : List Nat) : Nat :=
  l.foldl (fun a b => a ^^^ (b % 256)) 0

/-- Value of a byte reinterpreted as a (signed, on this target) C `char`. -/
def toSChar (n : Nat) : Int :=
  if n % 256 < 128 then ((n % 256 : Nat) : Int) else ((n % 256 : Nat) : Int) - 256

/-- `vmc96_calculate_checksum`: XOR-accumulates the buffer into a `char` and
returns that `char`, i.e. the signed reading of the XOR byte. -/
def vmc96_calculate_checksum (l : List Nat) : Int :=
  toSChar (xorBytes l)

/-! ## Frame construction (lines 353-368) -/

/-- `vmc96_prepare_raw_message`: builds
`[STX][address][raw_length][command][payload...][checksum]` where
`raw_length = data_length + 5` (an `unsigned char` store, hence `% 256`; the
codec contract caps payloads at 250 so no wrap occurs on legal inputs) and
the checksum byte is the XOR of the preceding `raw_length - 1` bytes (the
`char` result is stored back into an `unsigned char`, i.e. the XOR byte). -/
def vmc96_prepare_raw_message (id cmd : Nat) (data : List Nat) : List Nat :=
  let rawLen := (data.length + 5) % 256
  let hdr := [VMC96_MESSAGE_STX, id % 256, rawLen, cmd % 256] ++ data
  hdr ++ [xorBytes hdr]

/-! ## Response validation (lines 371-424) -/

/-- `vmc96_parse_raw_response`: switches on the controller address the
request targeted.  Broadcast accepts any nonempty reception verbatim; the
relay and motor-array addresses run the ordered structural checks (length,
STX, echoed source, declared length, checksum) — note the payload copy into
`response.data` happens before the checks, `data_length` is the `unsigned
char` value `raw[2] - 4`, and the checksum comparison pits the received
`unsigned char` against the signed `char` returned by
`vmc96_calculate_checksum`.  Any other address falls into the `default`
branch and succeeds with no checks and no mutation. -/
def vmc96_parse_raw_response (s : VMC96State) : VMC96Result × VMC96State :=
  let raw := s.response.raw
  let mid := s.message.id_controller
  if mid = VMC96_CONTROLLER_GLOBAL_BROADCAST then
    if raw.length = 0 then
      (.errResponseInvalidLength, s)
    else
      (.success, { s with response := { s.response with data := raw } })
  else if mid = VMC96_CONTROLLER_RELAY_1 ∨ mid = VMC96_CONTROLLER_RELAY_2 ∨
      mid = VMC96_CONTROLLER_MOTOR_ARRAY then
    if raw.length < 5 then
      (.errResponseInvalidLength, s)
    else
      let dataLen := (raw.getD 2 0 + 252) % 256
      let s1 := { s with response :=
        { s.response with
          id_controller := raw.getD 1 0
          data := (raw.drop 3).take dataLen } }
      if raw.getD 0 0 ≠ VMC96_MESSAGE_STX then
        (.errResponseMalformed, s1)
      else if raw.getD 1 0 ≠ mid then
        (.errResponseInvalidSource, s1)
      else if raw.getD 2 0 ≠ raw.length then
        (.errResponseInvalidLength, s1)
      else if ((raw.getD (raw.length - 1) 0 : Nat) : Int) ≠
          vmc96_calculate_checksum raw.dropLast then
        (.errResponseInvalidChecksum, s1)
      else
        (.success, s1)
  else
    (.success, s)

/-! ## Transport exchange and dispatcher (lines 427-493) -/

/-- `vmc96_send_raw_message`: purge, write the prepared frame, wait, read up
to 255 bytes into `response.raw`; each transport failure aborts with its own
error kind. -/
def vmc96_send_raw_message (s : VMC96State) (t : Transport) :
    VMC96Result × VMC96State × List TransportEvent :=
  if ¬ t.purge_ok then
    (.errFtdiPurgeBuffers, s, [.purge])
  else if ¬ t.write_ok then
    (.errFtdiWriteData, s, [.purge, .write s.message.raw])
  else
    match t.read_result with
    | none => (.errFtdiReadData, s, [.purge, .write s.message.raw, .read])
    | some bs =>
        (.success,
         { s with response := { s.response with raw := bs.take VMC96_MESSAGE_MAX_LEN } },
         [.purge, .write s.message.raw, .read])

/-- `vmc96_send_message_ex`: fills the outgoing message (an absent payload
clears the data buffer), prepares the raw frame, performs the raw exchange
and, when that succeeds, validates the response. -/
def vmc96_send_message_ex (s : VMC96State) (t : Transport) (id cmd : Nat)
    (data : List Nat) : VMC96Result × VMC96State × List TransportEvent :=
  let raw := vmc96_prepare_raw_message (id % 256) (cmd % 256) data
  let s1 : VMC96State :=
    { s with message :=
      { id_controller := id % 256, command := cmd % 256, data := data, raw := raw } }
  let (r, s2, ev) := vmc96_send_raw_message s1 t
  if r ≠ .success then
    (r, s2, ev)
  else
    let (r2, s3) := vmc96_parse_raw_response s2
    (r2, s3, ev)

/-- `vmc96_send_message`: `vmc96_send_message_ex` with no payload. -/
def vmc96_send_message (s : VMC96State) (t : Transport) (id cmd : Nat) :
    VMC96Result × VMC96State × List TransportEvent :=
  vmc96_send_message_ex s t id cmd []

/-! ## Public operations -/

/-- `vmc96_relay_ping`: ping the relay controller at base address + id. -/
def vmc96_relay_ping (s : VMC96State) (t : Transport) (id : Nat) :
    VMC96Result × VMC96State × List TransportEvent :=
  vmc96_send_message s t (VMC96_CONTROLLER_RELAY_BASE_ADDRESS + id)
    VMC96_COMMAND_SIMPLE_PING

/-- `vmc96_relay_get_version`: `version0` is the caller-visible contents of
the version buffer before the call (as the byte list of the C string); the
third component of the result is its contents after. -/
def vmc96_relay_get_version (s : VMC96State) (t : Transport) (id : Nat)
    (version0 : List Nat) :
    VMC96Result × VMC96State × List Nat × List TransportEvent :=
  let (r, s1, ev) := vmc96_send_message s t
    (VMC96_CONTROLLER_RELAY_BASE_ADDRESS + id) VMC96_COMMAND_KERNEL_VERSION
  if r ≠ .success then
    (r, s1, version0, ev)
  else
    let d := s1.response.data
    (.success, s1, if d.length > 0 then d.drop 1 else [], ev)

/-- `vmc96_motor_get_version`: same decoding against the motor array. -/
def vmc96_motor_get_version (s : VMC96State) (t : Transport)
    (version0 : List Nat) :
    VMC96Result × VMC96State × List Nat × List TransportEvent :=
  let (r, s1, ev) := vmc96_send_message s t VMC96_CONTROLLER_MOTOR_ARRAY
    VMC96_COMMAND_KERNEL_VERSION
  if r ≠ .success then
    (r, s1, version0, ev)
  else
    let d := s1.response.data
    (.success, s1, if d.length > 0 then d.drop 1 else [], ev)

/-- The motor-status decoding step of `vmc96_motor_get_status` (lines
257-275): zero the output struct, then, when the payload has at least two
bytes, require the echoed command byte, scale byte 1 to milliamps and decode
the remaining bytes as active-motor coordinates. -/
def vmc96_motor_status_decode (data : List Nat) :
    VMC96Result × VMC96MotorArrayStatus :=
  if 2 ≤ data.length then
    if data.getD 0 0 ≠ VMC96_COMMAND_MOTOR_STATUS_REQUEST then
      (.errResponseInvalidSource, zero_motor_array_status)
    else
      (.success,
       { current_ma := (VMC96_GET_MOTOR_CURRENT_MA (data.getD 1 0) : Int)
         active_count := data.length - 2
         motors := (data.drop 2).map (fun b =>
           { row := VMC96_GET_MOTOR_ROW b, col := VMC96_GET_MOTOR_COL b }) })
  else
    (.success, zero_motor_array_status)

/-- `vmc96_motor_get_status`: `status0` is the caller's struct contents
before the call; note the struct is zeroed after a successful exchange and
before the payload-source check. -/
def vmc96_motor_get_status (s : VMC96State) (t : Transport)
    (status0 : VMC96MotorArrayStatus) :
    VMC96Result × VMC96State × VMC96MotorArrayStatus × List TransportEvent :=
  let (r, s1, ev) := vmc96_send_message s t VMC96_CONTROLLER_MOTOR_ARRAY
    VMC96_COMMAND_MOTOR_STATUS_REQUEST
  if r ≠ .success then
    (r, s1, status0, ev)
  else
    let (r2, st) := vmc96_motor_status_decode s1.response.data
    (r2, s1, st, ev)

/-- `vmc96_motor_run`: the coordinate bounds are validated before any
transport interaction; the encoded motor id is stored into an `unsigned
char`, hence the `% 256`. -/
def vmc96_motor_run (s : VMC96State) (t : Transport) (row col : Nat) :
    VMC96Result × VMC96State × List TransportEvent :=
  let data := VMC96_GET_MOTOR_ID row col % 256
  if ¬ VMC96_VALIDATE_MOTOR_COORDINATE row col then
    (.errInvalidMotorCoordinates, s, [])
  else
    vmc96_send_message_ex s t VMC96_CONTROLLER_MOTOR_ARRAY
      VMC96_COMMAND_MOTOR_RUN [data]

/-- `vmc96_motor_pair_run`: both columns validated before any transport
interaction. -/
def vmc96_motor_pair_run (s : VMC96State) (t : Transport)
    (row col1 col2 : Nat) : VMC96Result × VMC96State × List TransportEvent :=
  let data := [VMC96_GET_MOTOR_ID row col1 % 256, VMC96_GET_MOTOR_ID row col2 % 256]
  if ¬ VMC96_VALIDATE_MOTOR_COORDINATE row col1 ∨
      ¬ VMC96_VALIDATE_MOTOR_COORDINATE row col2 then
    (.errInvalidMotorCoordinates, s, [])
  else
    vmc96_send_message_ex s t VMC96_CONTROLLER_MOTOR_ARRAY
      VMC96_COMMAND_MOTOR_RUN data

/-- `vmc96_motor_opto_line_status`: `status0` is the caller's `uint32_t`
before the call.  After a successful exchange the output is zeroed and the
four bytes after the echoed command byte are copied in (little-endian host)
only when the payload length is exactly 5. -/
def vmc96_motor_opto_line_status (s : VMC96State) (t : Transport)
    (status0 : Nat) : VMC96Result × VMC96State × Nat × List TransportEvent :=
  let (r, s1, ev) := vmc96_send_message s t VMC96_CONTROLLER_MOTOR_ARRAY
    VMC96_COMMAND_MOTOR_OPTO_LINE_STATUS
  if r ≠ .success then
    (r, s1, status0, ev)
  else
    let d := s1.response.data
    let out := if d.length = 5 then
        d.getD 1 0 + 256 * d.getD 2 0 + 65536 * d.getD 3 0 + 16777216 * d.getD 4 0
      else 0
    (.success, s1, out, ev)

/-! ## Claim theorems: coordinate round-trip, current scaling, frame layout -/

/-- Claim C4: for every coordinate pair within the motor array's bounds,
decoding the encoded motor-id byte returns the original row and column. -/
theorem motor_id_roundtrip (row col : Nat)
    (hrow : row < VMC96_MOTOR_ARRAY_ROWS_COUNT)
    (hcol : col < VMC96_MOTOR_ARRAY_COLUMNS_COUNT) :
    VMC96_GET_MOTOR_ROW (VMC96_GET_MOTOR_ID row col) = (row : Int) ∧
      VMC96_GET_MOTOR_COL (VMC96_GET_MOTOR_ID row col) = (col : Int) := by
  revert hrow hcol
  unfold VMC96_MOTOR_ARRAY_ROWS_COUNT VMC96_MOTOR_ARRAY_COLUMNS_COUNT
  intro hrow hcol
  interval_cases row <;> interval_cases col <;> constructor <;> decide

theorem motor_id_roundtrip_witness :
    VMC96_GET_MOTOR_ROW (VMC96_GET_MOTOR_ID 3 5) = (3 : Int) ∧
      VMC96_GET_MOTOR_COL (VMC96_GET_MOTOR_ID 3 5) = (5 : Int) :=
  motor_id_roundtrip 3 5 (by decide) (by decide)

/-- Claim C9: the current-reading scaling `(500 * raw) / 255` is
nondecreasing and maps 0 to 0 and 255 to 500. -/
theorem current_scale_monotone (a b : Nat) (hab : a ≤ b) :
    VMC96_GET_MOTOR_CURRENT_MA a ≤ VMC96_GET_MOTOR_CURRENT_MA b ∧
      VMC96_GET_MOTOR_CURRENT_MA 0 = 0 ∧ VMC96_GET_MOTOR_CURRENT_MA 255 = 500 :=
  ⟨Nat.div_le_div_right (Nat.mul_le_mul_left _ hab), by decide, by decide⟩

theorem current_scale_monotone_witness :
    VMC96_GET_MOTOR_CURRENT_MA 3 ≤ VMC96_GET_MOTOR_CURRENT_MA 200 ∧
      VMC96_GET_MOTOR_CURRENT_MA 0 = 0 ∧ VMC96_GET_MOTOR_CURRENT_MA 255 = 500 :=
  current_scale_monotone 3 200 (by decide)

/-- Claim C6: for every address, command and payload of length at most 250,
the built frame is `[STX][address][len+5][command][payload][checksum]`, its
last byte is the XOR of all preceding bytes, and the relay-0 ping frame is
exactly `35 26 05 00 16`. -/
theorem prepare_raw_message_layout (addr cmd : Nat) (payload : List Nat)
    (ha : addr < 256) (hc : cmd < 256) (hlen : payload.length ≤ 250) :
    vmc96_prepare_raw_message addr cmd payload =
        ([VMC96_MESSAGE_STX, addr, payload.length + 5, cmd] ++ payload) ++
          [xorBytes ([VMC96_MESSAGE_STX, addr, payload.length + 5, cmd] ++ payload)] ∧
      (vmc96_prepare_raw_message addr cmd payload).getLast? =
        some (xorBytes (vmc96_prepare_raw_message addr cmd payload).dropLast) ∧
      vmc96_prepare_raw_message 0x26 0x00 [] = [0x35, 0x26, 0x05, 0x00, 0x16] := by
  have hwrap : (payload.length + 5) % 256 = payload.length + 5 :=
    Nat.mod_eq_of_lt (by omega)
  have hmain : vmc96_prepare_raw_message addr cmd payload =
      ([VMC96_MESSAGE_STX, addr, payload.length + 5, cmd] ++ payload) ++
        [xorBytes ([VMC96_MESSAGE_STX, addr, payload.length + 5, cmd] ++ payload)] := by
    unfold vmc96_prepare_raw_message
    rw [hwrap, Nat.mod_eq_of_lt ha, Nat.mod_eq_of_lt hc]
  refine ⟨hmain, ?_, by decide⟩
  rw [hmain, List.getLast?_concat, List.dropLast_concat]

theorem prepare_raw_message_layout_witness :
    vmc96_prepare_raw_message 0x26 0x00 [] =
        ([VMC96_MESSAGE_STX, 0x26, List.length ([] : List Nat) + 5, 0x00] ++ ([] : List Nat)) ++
          [xorBytes ([VMC96_MESSAGE_STX, 0x26, List.length ([] : List Nat) + 5, 0x00] ++ ([] : List Nat))] ∧
      (vmc96_prepare_raw_message 0x26 0x00 []).getLast? =
        some (xorBytes (vmc96_prepare_raw_message 0x26 0x00 []).dropLast) ∧
      vmc96_prepare_raw_message 0x26 0x00 [] = [0x35, 0x26, 0x05, 0x00, 0x16] :=
  prepare_raw_message_layout 0x26 0x00 [] (by decide) (by decide) (by decide)



/-! ## Claim theorems: response validation -/

/-- Claim C2 (amended): for a response to a request targeted at a relay or
motor-array address, when at least 5 bytes were received and the first byte
is not 0x35, validation rejects with `Malformed` regardless of the other
fields.  (The original claim, with no length proviso, is refuted by
`parse_short_bad_stx_not_malformed`: the minimum-length check runs first.) -/
theorem parse_malformed_on_bad_stx (s : VMC96State)
    (hmid : s.message.id_controller = VMC96_CONTROLLER_RELAY_1 ∨
      s.message.id_controller = VMC96_CONTROLLER_RELAY_2 ∨
      s.message.id_controller = VMC96_CONTROLLER_MOTOR_ARRAY)
    (hlen : 5 ≤ s.response.raw.length)
    (hstx : s.response.raw.getD 0 0 ≠ VMC96_MESSAGE_STX) :
    (vmc96_parse_raw_response s).1 = .errResponseMalformed := by
  have h0 : s.message.id_controller ≠ VMC96_CONTROLLER_GLOBAL_BROADCAST := by
    rcases hmid with h | h | h <;> rw [h] <;> decide
  unfold vmc96_parse_raw_response
  rw [if_neg h0, if_pos hmid,
    if_neg (show ¬ s.response.raw.length < 5 by omega), if_pos hstx]

/-- Witness for claim C2 at a concrete 5-byte response with a wrong STX. -/
theorem parse_malformed_on_bad_stx_witness :
    (vmc96_parse_raw_response
      ⟨⟨0x26, 0, [], []⟩, ⟨0, 0, [], [0x00, 0x26, 0x05, 0x00, 0x16]⟩⟩).1 =
      .errResponseMalformed :=
  parse_malformed_on_bad_stx
    ⟨⟨0x26, 0, [], []⟩, ⟨0, 0, [], [0x00, 0x26, 0x05, 0x00, 0x16]⟩⟩
    (Or.inl rfl) (by decide) (by decide)

/-- Counterexample to claim C2 as stated: a 4-byte response whose first byte
is not 0x35 is rejected with `InvalidLength`, not `Malformed`. -/
theorem parse_short_bad_stx_not_malformed :
    List.getD [0, 0, 0, 0] 0 0 ≠ VMC96_MESSAGE_STX ∧
      (vmc96_parse_raw_response
          ⟨⟨0x26, 0, [], []⟩, ⟨0, 0, [], [0, 0, 0, 0]⟩⟩).1 =
        .errResponseInvalidLength ∧
      (vmc96_parse_raw_response
          ⟨⟨0x26, 0, [], []⟩, ⟨0, 0, [], [0, 0, 0, 0]⟩⟩).1 ≠
        .errResponseMalformed := by
  decide

/-- Claim C7 (amended): for a response to a request targeted at a relay or
motor-array address whose declared frame-length byte disagrees with the
actual received length, validation rejects with `InvalidLength` provided the
earlier checks pass — fewer than 5 bytes received (also `InvalidLength`), or
STX correct and echoed address matching.  (The original claim, for arbitrary
other fields, is refuted by `parse_bad_declared_len_not_invalid_length`.) -/
theorem parse_invalid_length_on_bad_declared_len (s : VMC96State)
    (hmid : s.message.id_controller = VMC96_CONTROLLER_RELAY_1 ∨
      s.message.id_controller = VMC96_CONTROLLER_RELAY_2 ∨
      s.message.id_controller = VMC96_CONTROLLER_MOTOR_ARRAY)
    (hdecl : s.response.raw.getD 2 0 ≠ s.response.raw.length)
    (hpass : s.response.raw.length < 5 ∨
      (s.response.raw.getD 0 0 = VMC96_MESSAGE_STX ∧
        s.response.raw.getD 1 0 = s.message.id_controller)) :
    (vmc96_parse_raw_response s).1 = .errResponseInvalidLength := by
  have h0 : s.message.id_controller ≠ VMC96_CONTROLLER_GLOBAL_BROADCAST := by
    rcases hmid with h | h | h <;> rw [h] <;> decide
  unfold vmc96_parse_raw_response
  rw [if_neg h0, if_pos hmid]
  by_cases hl : s.response.raw.length < 5
  · rw [if_pos hl]
  · rw [if_neg hl]
    rcases hpass with h | ⟨h1, h2⟩
    · exact absurd h hl
    · rw [if_neg (not_not_intro h1), if_neg (not_not_intro h2), if_pos hdecl]

/-- Witness for claim C7 at a concrete response declaring length 9 while 5
bytes were received. -/
theorem parse_invalid_length_on_bad_declared_len_witness :
    (vmc96_parse_raw_response
      ⟨⟨0x30, 0, [], []⟩, ⟨0, 0, [], [0x35, 0x30, 0x09, 0x00, 0x00]⟩⟩).1 =
      .errResponseInvalidLength :=
  parse_invalid_length_on_bad_declared_len
    ⟨⟨0x30, 0, [], []⟩, ⟨0, 0, [], [0x35, 0x30, 0x09, 0x00, 0x00]⟩⟩
    (Or.inr (Or.inr rfl)) (by decide) (Or.inr (by decide))

/-- Counterexample to claim C7 as stated: a response whose declared length
(9) disagrees with the received length (5) but whose first byte is also
wrong is rejected with `Malformed`, not `InvalidLength`. -/
theorem parse_bad_declared_len_not_invalid_length :
    List.getD [0, 0, 9, 0, 0] 2 0 ≠ List.length [0, 0, 9, 0, 0] ∧
      (vmc96_parse_raw_response
          ⟨⟨0x26, 0, [], []⟩, ⟨0, 0, [], [0, 0, 9, 0, 0]⟩⟩).1 =
        .errResponseMalformed ∧
      (vmc96_parse_raw_response
          ⟨⟨0x26, 0, [], []⟩, ⟨0, 0, [], [0, 0, 9, 0, 0]⟩⟩).1 ≠
        .errResponseInvalidLength := by
  decide

/-- Claim C1 (code-bug evaluation): the response `35 26 05 80 96` passes
validation steps 1-4 and its last byte equals the XOR of all preceding
bytes, yet the validator returns `InvalidChecksum`:
`vmc96_calculate_checksum` accumulates into a signed `char`, so the XOR
byte 0x96 is returned as -106 and the comparison against the unsigned
received byte 150 fails.  Every valid frame whose checksum has the high bit
set is rejected this way, contradicting the claimed iff. -/
theorem parse_rejects_frame_with_matching_high_bit_checksum :
    5 ≤ List.length [0x35, 0x26, 0x05, 0x80, 0x96] ∧
      List.getD [0x35, 0x26, 0x05, 0x80, 0x96] 0 0 = VMC96_MESSAGE_STX ∧
      List.getD [0x35, 0x26, 0x05, 0x80, 0x96] 1 0 = 0x26 ∧
      List.getD [0x35, 0x26, 0x05, 0x80, 0x96] 2 0 =
        List.length [0x35, 0x26, 0x05, 0x80, 0x96] ∧
      List.getD [0x35, 0x26, 0x05, 0x80, 0x96] 4 0 =
        xorBytes (List.dropLast [0x35, 0x26, 0x05, 0x80, 0x96]) ∧
      vmc96_calculate_checksum (List.dropLast [0x35, 0x26, 0x05, 0x80, 0x96]) = -106 ∧
      (vmc96_parse_raw_response
          ⟨⟨0x26, 0, [], []⟩, ⟨0, 0, [], [0x35, 0x26, 0x05, 0x80, 0x96]⟩⟩).1 =
        .errResponseInvalidChecksum := by
  decide

/-- Claim C10: for an exchange whose targeted controller address is not
0x00, 0x26, 0x27 or 0x30, response parsing performs no validation and
returns success with the session state (including the response payload
fields) untouched; `vmc96_relay_ping` with id 2 produces such an exchange
(address 0x28) and succeeds on arbitrary received bytes. -/
theorem parse_unknown_address_no_validation (s : VMC96State)
    (h0 : s.message.id_controller ≠ VMC96_CONTROLLER_GLOBAL_BROADCAST)
    (h1 : s.message.id_controller ≠ VMC96_CONTROLLER_RELAY_1)
    (h2 : s.message.id_controller ≠ VMC96_CONTROLLER_RELAY_2)
    (h3 : s.message.id_controller ≠ VMC96_CONTROLLER_MOTOR_ARRAY) :
    vmc96_parse_raw_response s = (.success, s) ∧
      (vmc96_relay_ping ⟨⟨0, 0, [], []⟩, ⟨0, 0, [], []⟩⟩
          ⟨true, true, some [1, 2, 3]⟩ 2).1 = .success ∧
      (vmc96_relay_ping ⟨⟨0, 0, [], []⟩, ⟨0, 0, [], []⟩⟩
          ⟨true, true, some [1, 2, 3]⟩ 2).2.1.message.id_controller = 0x28 := by
  refine ⟨?_, by decide, by decide⟩
  unfold vmc96_parse_raw_response
  rw [if_neg h0, if_neg (show ¬ _ from fun h => h.elim h1 (fun h => h.elim h2 h3))]

/-- Witness for claim C10 at a concrete state targeting address 0x28. -/
theorem parse_unknown_address_no_validation_witness :
    vmc96_parse_raw_response ⟨⟨0x28, 0, [], []⟩, ⟨0, 0, [], [9, 9]⟩⟩ =
        (.success, ⟨⟨0x28, 0, [], []⟩, ⟨0, 0, [], [9, 9]⟩⟩) ∧
      (vmc96_relay_ping ⟨⟨0, 0, [], []⟩, ⟨0, 0, [], []⟩⟩
          ⟨true, true, some [1, 2, 3]⟩ 2).1 = .success ∧
      (vmc96_relay_ping ⟨⟨0, 0, [], []⟩, ⟨0, 0, [], []⟩⟩
          ⟨true, true, some [1, 2, 3]⟩ 2).2.1.message.id_controller = 0x28 :=
  parse_unknown_address_no_validation ⟨⟨0x28, 0, [], []⟩, ⟨0, 0, [], [9, 9]⟩⟩
    (by decide) (by decide) (by decide) (by decide)


/-! ## Claim theorems: bounds checking, domain decoding, output isolation -/

/-- Claim C5: for coordinates outside the motor-array bounds,
`vmc96_motor_run` and `vmc96_motor_pair_run` fail with
`InvalidMotorCoordinates`, perform no transport interaction (empty event
list) and leave the session state unchanged. -/
theorem motor_run_out_of_bounds (s : VMC96State) (t : Transport)
    (row col row2 col1 col2 : Nat)
    (hrun : ¬ (row < VMC96_MOTOR_ARRAY_ROWS_COUNT ∧
      col < VMC96_MOTOR_ARRAY_COLUMNS_COUNT))
    (hpair : ¬ (row2 < VMC96_MOTOR_ARRAY_ROWS_COUNT ∧
        col1 < VMC96_MOTOR_ARRAY_COLUMNS_COUNT) ∨
      ¬ (row2 < VMC96_MOTOR_ARRAY_ROWS_COUNT ∧
        col2 < VMC96_MOTOR_ARRAY_COLUMNS_COUNT)) :
    vmc96_motor_run s t row col = (.errInvalidMotorCoordinates, s, []) ∧
      vmc96_motor_pair_run s t row2 col1 col2 =
        (.errInvalidMotorCoordinates, s, []) := by
  have hv : ∀ r c : Nat, VMC96_VALIDATE_MOTOR_COORDINATE r c = true ↔
      (r < VMC96_MOTOR_ARRAY_ROWS_COUNT ∧ c < VMC96_MOTOR_ARRAY_COLUMNS_COUNT) := by
    intro r c
    simp [VMC96_VALIDATE_MOTOR_COORDINATE]
  constructor
  · unfold vmc96_motor_run
    rw [if_pos (fun h => hrun ((hv row col).mp h))]
  · unfold vmc96_motor_pair_run
    rw [if_pos ?_]
    rcases hpair with h | h
    · exact Or.inl (fun hc => h ((hv row2 col1).mp hc))
    · exact Or.inr (fun hc => h ((hv row2 col2).mp hc))

/-- Witness for claim C5 at row 8 (one past the last row) and column 12
(one past the last column). -/
theorem motor_run_out_of_bounds_witness :
    vmc96_motor_run ⟨⟨0, 0, [], []⟩, ⟨0, 0, [], []⟩⟩ ⟨true, true, some []⟩ 8 0 =
        (.errInvalidMotorCoordinates, ⟨⟨0, 0, [], []⟩, ⟨0, 0, [], []⟩⟩, []) ∧
      vmc96_motor_pair_run ⟨⟨0, 0, [], []⟩, ⟨0, 0, [], []⟩⟩
          ⟨true, true, some []⟩ 0 12 0 =
        (.errInvalidMotorCoordinates, ⟨⟨0, 0, [], []⟩, ⟨0, 0, [], []⟩⟩, []) :=
  motor_run_out_of_bounds ⟨⟨0, 0, [], []⟩, ⟨0, 0, [], []⟩⟩ ⟨true, true, some []⟩
    8 0 0 12 0 (by decide) (Or.inl (by decide))

/-- Helper: the status decoder either flags an invalid source (zeroing the
struct) or succeeds. -/
theorem motor_status_decode_cases (data : List Nat) :
    vmc96_motor_status_decode data =
        (.errResponseInvalidSource, zero_motor_array_status) ∨
      (vmc96_motor_status_decode data).1 = .success := by
  unfold vmc96_motor_status_decode
  split
  · split
    · exact Or.inl rfl
    · exact Or.inr rfl
  · exact Or.inr rfl

/-- Claim C8: for every validated status payload of length at least 2, a
wrong source byte yields `InvalidSource`, and otherwise the decoded status
scales byte 1 to milliamps by `(500 * raw) / 255`, decodes bytes 2..
through the coordinate decoder and counts `length - 2` active motors; the
payload `10 80 11 22` decodes to 250 mA with motors (0,0) and (1,1). -/
theorem motor_status_decode_spec (data : List Nat) (hlen : 2 ≤ data.length) :
    (data.getD 0 0 ≠ VMC96_COMMAND_MOTOR_STATUS_REQUEST →
        vmc96_motor_status_decode data =
          (.errResponseInvalidSource, zero_motor_array_status)) ∧
      (data.getD 0 0 = VMC96_COMMAND_MOTOR_STATUS_REQUEST →
        vmc96_motor_status_decode data =
          (.success,
           ⟨((VMC96_MOTOR_MAX_CURRENT_READING_MA * data.getD 1 0) / 255 : Nat),
            data.length - 2,
            (data.drop 2).map (fun b =>
              ⟨VMC96_GET_MOTOR_ROW b, VMC96_GET_MOTOR_COL b⟩)⟩)) ∧
      vmc96_motor_status_decode [0x10, 0x80, 0x11, 0x22] =
        (.success, ⟨250, 2, [⟨0, 0⟩, ⟨1, 1⟩]⟩) := by
  refine ⟨?_, ?_, by decide⟩
  · intro h
    unfold vmc96_motor_status_decode
    rw [if_pos hlen, if_pos h]
  · intro h
    unfold vmc96_motor_status_decode
    rw [if_pos hlen, if_neg (not_not_intro h)]
    rfl

/-- Witness for claim C8 at a wrong-source payload and at the concrete
status payload `10 80 11 22`. -/
theorem motor_status_decode_spec_witness :
    vmc96_motor_status_decode [0, 0] =
        (.errResponseInvalidSource, zero_motor_array_status) ∧
      vmc96_motor_status_decode [0x10, 0x80, 0x11, 0x22] =
        (.success, ⟨250, 2, [⟨0, 0⟩, ⟨1, 1⟩]⟩) :=
  ⟨(motor_status_decode_spec [0, 0] (by decide)).1 (by decide),
   (motor_status_decode_spec [0x10, 0x80, 0x11, 0x22] (by decide)).2.2⟩

/-- Counterexample to claim C3 as stated: a validated status response whose
payload source byte is wrong makes `vmc96_motor_get_status` return
`InvalidSource` with the caller's struct zeroed, not left unchanged. -/
theorem motor_get_status_error_zeroes_output :
    (vmc96_motor_get_status ⟨⟨0, 0, [], []⟩, ⟨0, 0, [], []⟩⟩
        ⟨true, true, some [0x35, 0x30, 0x06, 0x00, 0x00, 0x03]⟩
        ⟨7, 0, []⟩).1 = .errResponseInvalidSource ∧
      (vmc96_motor_get_status ⟨⟨0, 0, [], []⟩, ⟨0, 0, [], []⟩⟩
          ⟨true, true, some [0x35, 0x30, 0x06, 0x00, 0x00, 0x03]⟩
          ⟨7, 0, []⟩).2.2.1 = zero_motor_array_status ∧
      zero_motor_array_status ≠ (⟨7, 0, []⟩ : VMC96MotorArrayStatus) := by
  decide

/-- Claim C3 (amended): every error return of the decoding operations leaves
the caller-visible output unchanged, except that `vmc96_motor_get_status`
zeroes the status struct before the payload-source check, so its
`InvalidSource` failure returns the zeroed struct.  (The original claim is
refuted by `motor_get_status_error_zeroes_output`.) -/
theorem ops_error_output_isolation :
    (∀ (s : VMC96State) (t : Transport) (id : Nat) (v0 : List Nat),
        (vmc96_relay_get_version s t id v0).1 ≠ .success →
          (vmc96_relay_get_version s t id v0).2.2.1 = v0) ∧
      (∀ (s : VMC96State) (t : Transport) (v0 : List Nat),
        (vmc96_motor_get_version s t v0).1 ≠ .success →
          (vmc96_motor_get_version s t v0).2.2.1 = v0) ∧
      (∀ (s : VMC96State) (t : Transport) (out0 : Nat),
        (vmc96_motor_opto_line_status s t out0).1 ≠ .success →
          (vmc96_motor_opto_line_status s t out0).2.2.1 = out0) ∧
      (∀ (s : VMC96State) (t : Transport) (st0 : VMC96MotorArrayStatus),
        (vmc96_motor_get_status s t st0).1 ≠ .success →
          (vmc96_motor_get_status s t st0).2.2.1 = st0 ∨
            ((vmc96_motor_get_status s t st0).1 = .errResponseInvalidSource ∧
              (vmc96_motor_get_status s t st0).2.2.1 = zero_motor_array_status)) := by
  refine ⟨?_, ?_, ?_, ?_⟩
  · intro s t id v0 hr
    unfold vmc96_relay_get_version at hr ⊢
    rcases h : vmc96_send_message s t (VMC96_CONTROLLER_RELAY_BASE_ADDRESS + id)
        VMC96_COMMAND_KERNEL_VERSION with ⟨r, s1, ev⟩
    rw [h] at hr
    dsimp only at hr ⊢
    by_cases hr' : r = VMC96Result.success
    · subst hr'
      rw [if_neg (not_not_intro rfl)] at hr
      exact absurd rfl hr
    · rw [if_pos hr']
  · intro s t v0 hr
    unfold vmc96_motor_get_version at hr ⊢
    rcases h : vmc96_send_message s t VMC96_CONTROLLER_MOTOR_ARRAY
        VMC96_COMMAND_KERNEL_VERSION with ⟨r, s1, ev⟩
    rw [h] at hr
    dsimp only at hr ⊢
    by_cases hr' : r = VMC96Result.success
    · subst hr'
      rw [if_neg (not_not_intro rfl)] at hr
      exact absurd rfl hr
    · rw [if_pos hr']
  · intro s t out0 hr
    unfold vmc96_motor_opto_line_status at hr ⊢
    rcases h : vmc96_send_message s t VMC96_CONTROLLER_MOTOR_ARRAY
        VMC96_COMMAND_MOTOR_OPTO_LINE_STATUS with ⟨r, s1, ev⟩
    rw [h] at hr
    dsimp only at hr ⊢
    by_cases hr' : r = VMC96Result.success
    · subst hr'
      rw [if_neg (not_not_intro rfl)] at hr
      exact absurd rfl hr
    · rw [if_pos hr']
  · intro s t st0 hr
    unfold vmc96_motor_get_status at hr ⊢
    rcases h : vmc96_send_message s t VMC96_CONTROLLER_MOTOR_ARRAY
        VMC96_COMMAND_MOTOR_STATUS_REQUEST with ⟨r, s1, ev⟩
    rw [h] at hr
    dsimp only at hr ⊢
    by_cases hr' : r = VMC96Result.success
    · subst hr'
      rw [if_neg (not_not_intro rfl)] at hr ⊢
      rcases h2 : vmc96_motor_status_decode s1.response.data with ⟨r2, st⟩
      rw [h2] at hr
      dsimp only at hr ⊢
      rcases motor_status_decode_cases s1.response.data with hd | hd <;>
        rw [h2] at hd
      · rw [Prod.mk.injEq] at hd
        exact Or.inr ⟨hd.1, hd.2⟩
      · exact absurd hd hr
    · rw [if_pos hr'] at hr ⊢
      exact Or.inl rfl

/-- Witness for claim C3: a failing purge leaves the version buffer
unchanged. -/
theorem ops_error_output_isolation_witness :
    (vmc96_relay_get_version ⟨⟨0, 0, [], []⟩, ⟨0, 0, [], []⟩⟩
        ⟨false, true, some []⟩ 0 [1, 2]).2.2.1 = [1, 2] :=
  ops_error_output_isolation.1 ⟨⟨0, 0, [], []⟩, ⟨0, 0, [], []⟩⟩
    ⟨false, true, some []⟩ 0 [1, 2] (by decide)

end VMC96
